import Mathlib

/-!
Verification of the AI-News MCP tools server.

The program is a small Express HTTP backend (src/server.js, with a reduced
variant in src/ai-news-mcp-tools/server.js). Every endpoint validates its
request body, optionally calls an external provider over HTTP, reshapes the
reply and responds with JSON. This file gives a shallow embedding of the
request handlers as pure Lean functions. External effects (the provider
HTTP calls, the filesystem, the network fetch of an article) are modelled
as explicit oracle parameters describing their outcome; request bodies are
modelled structurally, with `Option` encoding an absent or undefined field.
Side effects a handler performs before responding (credential checks,
outbound provider calls) are returned as an explicit effect trace so that
claims of the form "no provider call is made" are statements about the
returned trace.
-/

namespace AINews

/-! ## JavaScript semantics helpers

The handlers rely on JavaScript truthiness, `String.prototype.split`,
`String.prototype.trim`, and `x || null` coalescing; these helpers embed
those semantics for string-valued data. An `Option String` models a value
that is either a string or absent/undefined.
-/

/-- JavaScript truthiness for a string-or-undefined value: `undefined` and
the empty string are falsy, every other string is truthy. -/
def jsTruthy : Option String → Bool
  | none => false
  | some s => s != ""

/-- JavaScript `x || null` for a string-or-undefined `x`: a falsy value
(undefined or the empty string) collapses to `null` (here `none`). -/
def jsOrNullStr : Option String → Option String
  | none => none
  | some s => if s == "" then none else some s

/-- The character class of JavaScript `\s` (also the set trimmed by
`String.prototype.trim`): space, tab, line feed, carriage return, vertical
tab, form feed, NBSP, Ogham space, the U+2000 to U+200A spaces, the line and
paragraph separators, narrow NBSP, medium mathematical space, ideographic
space and the BOM. -/
def jsIsSpace (c : Char) : Bool :=
  c == ' ' || c == '\t' || c == '\n' || c == '\r' ||
  c.toNat == 11 || c.toNat == 12 || c.toNat == 160 || c.toNat == 0x1680 ||
  (0x2000 ≤ c.toNat && c.toNat ≤ 0x200a) ||
  c.toNat == 0x2028 || c.toNat == 0x2029 || c.toNat == 0x202f ||
  c.toNat == 0x205f || c.toNat == 0x3000 || c.toNat == 0xfeff

/-- The JavaScript line terminators, which the regexp metacharacter `.`
does not match when the `s` flag is absent. -/
def isLineTerm (c : Char) : Bool :=
  c == '\n' || c == '\r' || c.toNat == 0x2028 || c.toNat == 0x2029

/-- `String.prototype.trim` on a character list: strip `\s` characters from
both ends. -/
def jsTrimList (l : List Char) : List Char :=
  ((l.dropWhile jsIsSpace).reverse.dropWhile jsIsSpace).reverse

/-- `String.prototype.trim`. -/
def jsTrimStr (s : String) : String :=
  String.mk (jsTrimList s.data)

/-- `String.prototype.split(' ')` on a character list: cut at every single
space character, keeping empty pieces. The first argument is the
accumulator for the piece currently being read, in reverse. -/
def jsSplitSpace : List Char → List Char → List (List Char)
  | acc, [] => [acc.reverse]
  | acc, c :: cs =>
    if c == ' ' then acc.reverse :: jsSplitSpace [] cs
    else jsSplitSpace (c :: acc) cs

/-- `s.split(' ')` as a list of strings. -/
def jsSplitSpaceStr (s : String) : List String :=
  (jsSplitSpace [] s.data).map String.mk

/-! ## Authentication middleware

src/server.js lines 90 to 103 (`authenticateToken`, identical in
src/ai-news-mcp-tools/server.js lines 14 to 27):

  if no `BE_TOKEN` is configured the middleware calls `next()` so the route
  handler runs; otherwise it reads `req.headers.authorization`, takes
  `authHeader && authHeader.split(' ')[1]` as the token, and answers
  401 with body error "unauthorized" (without running the route handler)
  when that token is falsy or differs from the secret.
-/

/-- Result of the authentication middleware: `proceed` means `next()` was
called and the route handler runs; `unauthorized` means the middleware
responded 401 with body error "unauthorized" and the handler does not run. -/
inductive AuthResult where
  | proceed
  | unauthorized
deriving DecidableEq, Repr

/-- The token the middleware extracts from the Authorization header:
`authHeader && authHeader.split(' ')[1]`. An absent header, or an empty
header string (falsy, so the `&&` short-circuits), yields no token;
otherwise the element at index 1 of the split, which is absent when the
header contains no space. -/
def extractToken : Option String → Option String
  | none => none
  | some h => if h == "" then none else (jsSplitSpaceStr h)[1]?

/-- The `authenticateToken` middleware. The first argument is the
configured `BE_TOKEN` environment value (absent or a string, where the
empty string is falsy, hence also treated as unconfigured), the second is
the request's Authorization header. -/
def authenticateToken (beToken : Option String) (authHeader : Option String) : AuthResult :=
  match beToken with
  | none => .proceed
  | some secret =>
    if secret == "" then .proceed
    else
      match extractToken authHeader with
      | none => .unauthorized
      | some t => if t == "" || t != secret then .unauthorized else .proceed

/-! ## The summarize_article endpoint

src/server.js lines 111 to 209. The handler:
  1. answers 400 with error "text is required" when `req.body.text` is falsy;
  2. answers 500 with error "OpenAI API key not configured" when
     `OPENAI_API_KEY` is falsy;
  3. calls the chat-completions provider; a non-ok HTTP status is propagated
     with the raw body as details;
  4. answers 500 when the reply carries no message content;
  5. parses the content as JSON (after stripping an optional code fence);
     parse failure answers 500 with the raw content;
  6. computes `missingKeys = requiredKeys.filter(key => !(key in parsed))`
     and answers 500 naming the missing keys when any of the four required
     keys is absent; otherwise responds with the parsed object verbatim.

The provider call, together with the JSON.parse of its textual content, is
abstracted by the `ProviderOutcome` oracle: it reports an HTTP failure,
absent content, unparsable content, or the parsed JSON object. A parsed
JSON object is modelled as an association list of key and value strings
(only key membership and verbatim echoing matter to the handler).
-/

/-- Outcome of the chat-completions call made by summarize_article,
including the subsequent content extraction and JSON parse. -/
inductive ProviderOutcome where
  | httpErr (status : Nat) (body : String)
  | noContent
  | badJson (raw : String)
  | parsed (obj : List (String × String))
deriving DecidableEq, Repr

/-- Effects a handler performs before responding: reading the provider
credential from the environment, and making the outbound provider call.
Listed in execution order. -/
inductive SumEffect where
  | credentialCheck
  | providerCall
deriving DecidableEq, Repr

/-- A JSON response from the summarize_article handler: an error envelope
(with optional details, received object, or raw content field), or the
parsed provider object echoed verbatim with HTTP status 200. -/
inductive SumResponse where
  | errMsg (status : Nat) (message : String)
  | errDetails (status : Nat) (message : String) (details : String)
  | errReceived (status : Nat) (message : String) (received : List (String × String))
  | errRaw (status : Nat) (message : String) (raw : String)
  | ok (body : List (String × String))
deriving DecidableEq, Repr

/-- The four keys the handler requires in the parsed provider reply. -/
def requiredKeys : List String :=
  ["summary_one_liner", "visual_brief", "image_prompt", "action"]

/-- The JavaScript `key in obj` test on the association-list model. -/
def hasKey (obj : List (String × String)) (k : String) : Bool :=
  (obj.map Prod.fst).contains k

/-- `requiredKeys.filter(key => !(key in parsedContent))`. -/
def missingKeysOf (obj : List (String × String)) : List String :=
  requiredKeys.filter (fun k => !(hasKey obj k))

/-- JavaScript `array.join(', ')`. -/
def joinComma : List String → String
  | [] => ""
  | [s] => s
  | s :: rest => s ++ ", " ++ joinComma rest

/-- The key validation at src/server.js lines 184 to 195: when
`missingKeys.length > 0` respond 500 naming the missing keys and echoing
the received object; otherwise respond with the parsed object verbatim. -/
def validateSummaryKeys (obj : List (String × String)) : SumResponse :=
  if (missingKeysOf obj).length > 0 then
    .errReceived 500
      ("Invalid response format. Missing keys: " ++ joinComma (missingKeysOf obj)) obj
  else .ok obj

/-- The summarize_article handler. `text` is `req.body.text`, `apiKey` is
the `OPENAI_API_KEY` environment value, `p` the provider oracle. Returns
the JSON response together with the trace of effects performed. -/
def summarize_article (text : Option String) (apiKey : Option String)
    (p : ProviderOutcome) : SumResponse × List SumEffect :=
  if !(jsTruthy text) then (.errMsg 400 "text is required", [])
  else if !(jsTruthy apiKey) then
    (.errMsg 500 "OpenAI API key not configured", [.credentialCheck])
  else
    match p with
    | .httpErr s b =>
      (.errDetails s ("OpenAI API error: " ++ toString s) b,
       [.credentialCheck, .providerCall])
    | .noContent =>
      (.errMsg 500 "No content received from OpenAI",
       [.credentialCheck, .providerCall])
    | .badJson raw =>
      (.errRaw 500 "Failed to parse OpenAI response as JSON" raw,
       [.credentialCheck, .providerCall])
    | .parsed obj =>
      (validateSummaryKeys obj, [.credentialCheck, .providerCall])

/-! ## Local image persistence and the image-generation endpoints

src/server.js lines 51 to 78 (`saveImageToFolder`), 212 to 286
(`fal_generate`) and 424 to 504 (`fal_flux_lora_generate`). The
filesystem (directory creation plus file write) is abstracted by the
`FsOutcome` oracle: either every filesystem call succeeds, or some call
throws an error whose message is captured by the function's catch block.
JSON field values that the handlers forward without inspecting are
modelled by `JVal`; an `Option JVal` body field is `none` when absent or
undefined, so that the JavaScript destructuring default (applied exactly
when the value is undefined) is `Option.getD`.
-/

/-- An uninterpreted JSON value appearing in a request body. -/
inductive JVal where
  | jnull
  | jbool (b : Bool)
  | jnum (q : Rat)
  | jstr (s : String)
deriving DecidableEq, Repr

/-- A style-adapter reference as sent by the workflow: a weights file path
and a scale. The endpoints forward these without inspecting them. -/
structure Lora where
  path : String
  scale : Rat
deriving DecidableEq, Repr

/-- Outcome of the filesystem operations performed by saveImageToFolder. -/
inductive FsOutcome where
  | ok
  | err (message : String)
deriving DecidableEq, Repr

/-- The value returned by saveImageToFolder: on success a success flag with
path and filename, on a caught error a failure flag with the error message.
Fields that the corresponding JavaScript object literal omits are `none`. -/
structure SaveResult where
  success : Bool
  path : Option String
  filename : Option String
  error : Option String
deriving DecidableEq, Repr

/-- `saveImageToFolder(base64Data, filename)`, src/server.js lines 51 to 78.
The whole body sits in a try/catch, so the function always returns a
`SaveResult` and never throws past its boundary: a thrown filesystem error
is caught and its message returned in the `error` field. `cwd` models
`process.cwd()`; the data-URL stripping and the byte decoding only affect
the written bytes, which the filesystem oracle abstracts. -/
def saveImageToFolder (cwd : String) (fs : FsOutcome)
    (base64Data : String) (filename : String) : SaveResult :=
  match fs with
  | .ok =>
    { success := true
      path := some (cwd ++ "/ai_generated_images/" ++ filename)
      filename := some filename
      error := none }
  | .err m =>
    { success := false
      path := none
      filename := none
      error := some m }

/-- Outcome of a fal.run image-generation call: non-ok HTTP status with raw
body; an ok reply whose JSON lacks `images[0].url` (serialized as `raw`);
or an ok reply carrying an image URL. -/
inductive FalProvider where
  | httpErr (status : Nat) (body : String)
  | missingImage (raw : String)
  | image (url : String)
deriving DecidableEq, Repr

/-- Effects of an image-generation handler, in execution order. -/
inductive FalEffect where
  | credentialCheck
  | providerCall
deriving DecidableEq, Repr

/-- The success body of an image-generation endpoint:
`{image_url, saved_to_file, save_error}`. -/
structure FalResponseBody where
  image_url : String
  saved_to_file : Option String
  save_error : Option String
deriving DecidableEq, Repr

/-- A JSON response from an image-generation handler. `okJson` is sent by
`res.json(...)` with HTTP status 200. -/
inductive FalHttpResponse where
  | err (status : Nat) (message : String)
  | errFal (status : Nat) (message : String) (fal : String)
  | okJson (body : FalResponseBody)
deriving DecidableEq, Repr

/-- The HTTP status of an image-generation response. -/
def FalHttpResponse.statusCode : FalHttpResponse → Nat
  | .err s _ => s
  | .errFal s _ _ => s
  | .okJson _ => 200

/-- Request body of `/tools/fal_generate`. Absent or undefined fields are
`none`. -/
structure FalGenBody where
  prompt : Option String
  width : Option JVal
  height : Option JVal
  steps : Option JVal
  guidance : Option JVal
  sync_mode : Option JVal
deriving DecidableEq, Repr

/-- Request body of `/tools/fal_flux_lora_generate`. -/
structure FalLoraBody where
  prompt : Option String
  loras : Option (List Lora)
  width : Option JVal
  height : Option JVal
  steps : Option JVal
  guidance : Option JVal
  sync_mode : Option JVal
deriving DecidableEq, Repr

/-- The payload `fal_generate` sends to https://fal.run/fal-ai/flux
(image_size flattened into width and height fields). -/
structure FalPayload where
  prompt : String
  image_size_width : JVal
  image_size_height : JVal
  num_inference_steps : JVal
  guidance_scale : JVal
  enable_safety_checker : Bool
  output_format : String
  sync_mode : JVal
deriving DecidableEq, Repr

/-- The payload `fal_flux_lora_generate` sends to
https://fal.run/fal-ai/flux-lora. -/
structure FalLoraPayload where
  prompt : String
  image_size_width : JVal
  image_size_height : JVal
  num_inference_steps : JVal
  guidance_scale : JVal
  enable_safety_checker : Bool
  loras : List Lora
  output_format : String
  sync_mode : JVal
deriving DecidableEq, Repr

/-- The `/tools/fal_generate` handler, src/server.js lines 212 to 286.
`falKey` is the `FAL_KEY` environment value, `fn` the timestamped filename
(`generated_<timestamp>.jpg`, abstracted since the clock is external),
`cwd` the process working directory and `fs` the filesystem oracle.
Returns the response, the effect trace, and the payload sent to the
provider (`none` when no provider call was made). The destructuring
defaults width 1080, height 1350, steps 28, guidance 3.5 and sync_mode
true apply exactly when the field is undefined. -/
def fal_generate (body : FalGenBody) (falKey : Option String) (p : FalProvider)
    (fn : String) (cwd : String) (fs : FsOutcome) :
    FalHttpResponse × List FalEffect × Option FalPayload :=
  let width := body.width.getD (.jnum 1080)
  let height := body.height.getD (.jnum 1350)
  let steps := body.steps.getD (.jnum 28)
  let guidance := body.guidance.getD (.jnum (7 / 2))
  let sync_mode := body.sync_mode.getD (.jbool true)
  if !(jsTruthy body.prompt) then (.err 400 "prompt is required", [], none)
  else if !(jsTruthy falKey) then
    (.err 500 "FAL API key not configured", [.credentialCheck], none)
  else
    let payload : FalPayload :=
      { prompt := body.prompt.getD ""
        image_size_width := width
        image_size_height := height
        num_inference_steps := steps
        guidance_scale := guidance
        enable_safety_checker := true
        output_format := "jpeg"
        sync_mode := sync_mode }
    match p with
    | .httpErr s b =>
      (.errFal s ("FAL API error: " ++ toString s) b,
       [.credentialCheck, .providerCall], some payload)
    | .missingImage raw =>
      (.errFal 500 "No image URL in FAL response" raw,
       [.credentialCheck, .providerCall], some payload)
    | .image url =>
      let saveResult := saveImageToFolder cwd fs url fn
      (.okJson
        { image_url := url
          saved_to_file := if saveResult.success then some fn else none
          save_error := jsOrNullStr saveResult.error },
       [.credentialCheck, .providerCall], some payload)

/-- The `/tools/fal_flux_lora_generate` handler, src/server.js lines 424
to 504. Same shape as `fal_generate` plus the loras validation: a missing
`loras` field, a non-array value, or an empty array is rejected with 400
before the credential check. The filename is `lora_<timestamp>.jpg`. -/
def fal_flux_lora_generate (body : FalLoraBody) (falKey : Option String)
    (p : FalProvider) (fn : String) (cwd : String) (fs : FsOutcome) :
    FalHttpResponse × List FalEffect × Option FalLoraPayload :=
  let width := body.width.getD (.jnum 1080)
  let height := body.height.getD (.jnum 1350)
  let steps := body.steps.getD (.jnum 28)
  let guidance := body.guidance.getD (.jnum (7 / 2))
  let sync_mode := body.sync_mode.getD (.jbool true)
  if !(jsTruthy body.prompt) then (.err 400 "prompt is required", [], none)
  else
    match body.loras with
    | none => (.err 400 "loras array is required", [], none)
    | some [] => (.err 400 "loras array is required", [], none)
    | some (l :: ls) =>
      if !(jsTruthy falKey) then
        (.err 500 "FAL API key not configured", [.credentialCheck], none)
      else
        let payload : FalLoraPayload :=
          { prompt := body.prompt.getD ""
            image_size_width := width
            image_size_height := height
            num_inference_steps := steps
            guidance_scale := guidance
            enable_safety_checker := true
            loras := l :: ls
            output_format := "jpeg"
            sync_mode := sync_mode }
        match p with
        | .httpErr s b =>
          (.errFal s ("FAL API error: " ++ toString s) b,
           [.credentialCheck, .providerCall], some payload)
        | .missingImage raw =>
          (.errFal 500 "No image URL in FAL response" raw,
           [.credentialCheck, .providerCall], some payload)
        | .image url =>
          let saveResult := saveImageToFolder cwd fs url fn
          (.okJson
            { image_url := url
              saved_to_file := if saveResult.success then some fn else none
              save_error := jsOrNullStr saveResult.error },
           [.credentialCheck, .providerCall], some payload)

/-! ## The process_news_url workflow endpoint

src/server.js lines 289 to 421. After validating `req.body.url`, the
handler sequences: content extraction, an HTTP self-call to
`/tools/summarize_article`, an early return when the summary's `action` is
"SKIP", an HTTP self-call to `/tools/fal_flux_lora_generate`, a direct
chat-completions call producing an Instagram caption, and the success
response. Every failure throws and is caught by the surrounding try/catch,
which responds 500 with the error message and status "failed". The four
external interactions are abstracted by the `WorkflowEnv` oracle; the
returned `WfTrace` counts how many image-generation self-calls and caption
provider calls the run performed, which makes "no downstream step runs"
claims statements about the trace.
-/

/-- The value `extractContentFromURL` resolves with: page title, bounded
text content, and the url echoed back. -/
structure Extraction where
  title : String
  content : String
  url : String
deriving DecidableEq, Repr

/-- The JSON object returned by the summarize self-call (the fields the
workflow reads). -/
structure SummaryData where
  summary_one_liner : String
  visual_brief : String
  image_prompt : String
  action : String
deriving DecidableEq, Repr

/-- The JSON object returned by the image-generation self-call (the fields
the workflow reads). -/
structure ImageResult where
  image_url : String
  saved_to_file : Option String
deriving DecidableEq, Repr

/-- Decidable equality for the `Except` oracles below. -/
instance exceptDecEq {ε α : Type} [DecidableEq ε] [DecidableEq α] :
    DecidableEq (Except ε α) := fun a b =>
  match a, b with
  | .error e, .error f =>
    if h : e = f then isTrue (by rw [h])
    else isFalse (by intro hh; cases hh; exact h rfl)
  | .ok x, .ok y =>
    if h : x = y then isTrue (by rw [h])
    else isFalse (by intro hh; cases hh; exact h rfl)
  | .error _, .ok _ => isFalse (by intro hh; cases hh)
  | .ok _, .error _ => isFalse (by intro hh; cases hh)

/-- Oracle for the workflow's four external interactions. `Except.error`
carries the thrown error message (for extraction) or the non-ok HTTP
status (for the three calls). The caption call resolves with
`choices[0]?.message?.content`, which may be absent. -/
structure WorkflowEnv where
  extract : Except String Extraction
  summary : Except Nat SummaryData
  image : Except Nat ImageResult
  caption : Except Nat (Option String)
deriving DecidableEq, Repr

/-- How many image-generation self-calls and caption provider calls a
workflow run performed. -/
structure WfTrace where
  imageCalls : Nat
  captionCalls : Nat
deriving DecidableEq, Repr

/-- A JSON response from the process_news_url handler. `badRequest` is 400,
`failed` is 500 with status "failed", `skipped` and `success` are 200
bodies with status "skipped" and "success" respectively, carrying the
fields of the corresponding object literals in the source. -/
inductive WfResponse where
  | badRequest (message : String)
  | failed (message : String)
  | skipped (reason : String) (url : String) (title : String)
  | success (url : String) (title : String) (summary : String)
      (visual_brief : String) (image_prompt : String) (image_url : String)
      (saved_image : Option String) (instagram_caption : String)
deriving DecidableEq, Repr

/-- The caption assembly at src/server.js line 396:
`captionData.choices[0]?.message?.content?.trim() || summaryData.summary_one_liner`.
An absent content, or a content that trims to the empty string, silently
falls back to the one-line summary. -/
def captionFromContent (content : Option String) (fallback : String) : String :=
  match content with
  | none => fallback
  | some c => if jsTrimStr c == "" then fallback else jsTrimStr c

/-- The `/tools/process_news_url` handler. The completion timestamp of the
success response is abstracted away (it does not appear in any claim). -/
def process_news_url (url : Option String) (env : WorkflowEnv) :
    WfResponse × WfTrace :=
  if !(jsTruthy url) then (.badRequest "url is required", ⟨0, 0⟩)
  else
    match env.extract with
    | .error e => (.failed e, ⟨0, 0⟩)
    | .ok ext =>
      match env.summary with
      | .error s => (.failed ("Summary failed: " ++ toString s), ⟨0, 0⟩)
      | .ok sd =>
        if sd.action == "SKIP" then
          (.skipped "Content flagged as sensitive" (url.getD "") ext.title, ⟨0, 0⟩)
        else
          match env.image with
          | .error s =>
            (.failed ("Image generation failed: " ++ toString s), ⟨1, 0⟩)
          | .ok img =>
            match env.caption with
            | .error s =>
              (.failed ("Caption generation failed: " ++ toString s), ⟨1, 1⟩)
            | .ok content =>
              (.success (url.getD "") ext.title sd.summary_one_liner
                sd.visual_brief sd.image_prompt img.image_url img.saved_to_file
                (captionFromContent content sd.summary_one_liner), ⟨1, 1⟩)

/-! ## The content extractor

src/server.js lines 25 to 42 (`extractContentFromURL`, success path). The
fetched markup is transformed by a chain of string replacements:

  html.replace(/<script[^>]*>.*?<\/script>/gi, '')
      .replace(/<style[^>]*>.*?<\/style>/gi, '')
      .replace(/<[^>]*>/g, ' ')
      .replace(/\s+/g, ' ')
      .trim()

followed by `.substring(0, 5000)`. The two block regexps are
case-insensitive and lazy, and crucially carry no `s` flag, so the `.` in
`.*?` does not cross a line terminator: a block whose body spans a line
break is not matched. The functions below implement exactly these regexp
replacements on character lists; each scanner takes a fuel argument (one
unit per consumed character, so the input length is always enough),
keeping the recursion structural. The `dotAll` flag selects whether `.`
matches line terminators: the source behaviour is `dotAll := false`, while
`dotAll := true` yields the idealized pipeline in which every block is
stripped regardless of line breaks, as the specification describes.
-/

/-- Case-insensitive literal match (regexp `i` flag): when the pattern
`lit` is a prefix of `cs` up to `Char.toLower`, return the remainder. -/
def matchCI : List Char → List Char → Option (List Char)
  | [], rest => some rest
  | _ :: _, [] => none
  | p :: ps, c :: cs => if p.toLower == c.toLower then matchCI ps cs else none

/-- Match `[^>]*>`: skip to the first `>` and return what follows; fail if
no `>` occurs. -/
def consumeTagEnd : List Char → Option (List Char)
  | [] => none
  | c :: cs => if c == '>' then some cs else consumeTagEnd cs

/-- Match `.*?` up to the closing literal (lazy: the earliest closing
occurrence wins), returning what follows the closing literal. When
`dotAll` is false, `.` cannot skip a line terminator, so reaching one
before the closing literal fails the whole match. -/
def findClose (closeLit : List Char) (dotAll : Bool) : List Char → Option (List Char)
  | [] => matchCI closeLit []
  | c :: cs =>
    match matchCI closeLit (c :: cs) with
    | some rest => some rest
    | none =>
      if !dotAll && isLineTerm c then none
      else findClose closeLit dotAll cs

/-- Try to match a whole block `<open[^>]*>.*?closeLit` at the head of
`cs`, returning the remainder after the closing literal. -/
def tryBlock (openLit closeLit : List Char) (dotAll : Bool) (cs : List Char) :
    Option (List Char) :=
  match matchCI openLit cs with
  | none => none
  | some r1 =>
    match consumeTagEnd r1 with
    | none => none
    | some r2 => findClose closeLit dotAll r2

/-- Global replacement of every block match by the empty string: scan left
to right, and at each position either remove a whole block match or emit
the character. -/
def stripBlocks (openLit closeLit : List Char) (dotAll : Bool) :
    Nat → List Char → List Char
  | 0, cs => cs
  | _ + 1, [] => []
  | fuel + 1, c :: cs =>
    match tryBlock openLit closeLit dotAll (c :: cs) with
    | some rest => stripBlocks openLit closeLit dotAll fuel rest
    | none => c :: stripBlocks openLit closeLit dotAll fuel cs

/-- `stripBlocks` with adequate fuel. -/
def stripBlocksAll (openLit closeLit : List Char) (dotAll : Bool)
    (cs : List Char) : List Char :=
  stripBlocks openLit closeLit dotAll cs.length cs

/-- Global replacement `.replace(/<[^>]*>/g, ' ')`: at each `<` that is
followed (anywhere) by a `>`, drop through that `>` and emit one space. -/
def stripTagsAux : Nat → List Char → List Char
  | 0, cs => cs
  | _ + 1, [] => []
  | fuel + 1, c :: cs =>
    if c == '<' then
      match consumeTagEnd cs with
      | some rest => ' ' :: stripTagsAux fuel rest
      | none => c :: stripTagsAux fuel cs
    else c :: stripTagsAux fuel cs

/-- `stripTagsAux` with adequate fuel. -/
def stripTags (cs : List Char) : List Char :=
  stripTagsAux cs.length cs

/-- `.replace(/\s+/g, ' ')`: each maximal run of `\s` characters becomes a
single space. The flag records whether the previous character was part of
a whitespace run. -/
def collapseWs : List Char → Bool → List Char
  | [], _ => []
  | c :: cs, prevSpace =>
    if jsIsSpace c then
      if prevSpace then collapseWs cs true else ' ' :: collapseWs cs true
    else c :: collapseWs cs false

/-- The open and close literals of the two block regexps. -/
def scriptOpen : List Char := "<script".data

/-- Closing literal of the script block regexp. -/
def scriptClose : List Char := "</script>".data

/-- Opening literal of the style block regexp. -/
def styleOpen : List Char := "<style".data

/-- Closing literal of the style block regexp. -/
def styleClose : List Char := "</style>".data

/-- The full text pipeline of `extractContentFromURL`, parameterized by
the `dotAll` behaviour of the block regexps. `String.take 5000` is
JavaScript `substring(0, 5000)`. -/
def extractTextPipeline (dotAll : Bool) (html : String) : String :=
  String.mk
    ((jsTrimList
        (collapseWs
          (stripTags
            (stripBlocksAll styleOpen styleClose dotAll
              (stripBlocksAll scriptOpen scriptClose dotAll html.data)))
          false)).take 5000)

/-- The content text computed by the source: `dotAll := false`, because
the block regexps carry no `s` flag. -/
def extractTextContent (html : String) : String :=
  extractTextPipeline false html

/-- The extraction described by the specification, which says every
script and style block is stripped: the same pipeline with `dotAll :=
true`, so a block is matched regardless of line breaks in its body. -/
def extractTextContentSpec (html : String) : String :=
  extractTextPipeline true html

/-! ## Concrete example inputs used by witnesses and counterexamples -/

/-- A parsed provider reply with the four required keys and one extra. -/
def extraKeyObj : List (String × String) :=
  [("summary_one_liner", "s"), ("visual_brief", "v"), ("image_prompt", "p"),
   ("action", "PROCEED"), ("extra", "x")]

/-- A parsed provider reply missing the `action` key. -/
def objMissingAction : List (String × String) :=
  [("summary_one_liner", "s"), ("visual_brief", "v"), ("image_prompt", "p")]

/-- A minimal valid fal_generate body. -/
def c4Body : FalGenBody :=
  ⟨some "p", none, none, none, none, none⟩

/-- A fal_generate body supplying the falsy values width 0, guidance null
and sync_mode false explicitly. -/
def c10GenBody : FalGenBody :=
  ⟨some "x", some (.jnum 0), none, none, some .jnull, some (.jbool false)⟩

/-- A fal_flux_lora_generate body supplying width 0 and sync_mode false
explicitly. -/
def c10LoraBody : FalLoraBody :=
  ⟨some "x", some [⟨"w.safetensors", 1⟩], some (.jnum 0), none, none, none,
   some (.jbool false)⟩

/-- A workflow environment whose summarizer reply carries action SKIP and
whose downstream oracles would fail if they were consulted. -/
def skipEnv : WorkflowEnv :=
  { extract := .ok ⟨"Title", "Body", "https://example.com"⟩
    summary := .ok ⟨"S", "V", "P", "SKIP"⟩
    image := .error 500
    caption := .error 500 }

/-- An HTML document whose script block body spans line breaks. -/
def scriptNewlineDoc : String := "<script>\na\n</script>ok"

/-- A single-line HTML document with a script and a style block. -/
def singleLineDoc : String :=
  "<p>Hi <script>x()</script>there <style>b</style>now</p>"

/-! ## Theorems -/

/-- Splitting a list that contains no space character yields a single
piece. -/
theorem jsSplitSpace_nospace (l : List Char) :
    ∀ acc, (∀ c ∈ l, c ≠ ' ') → jsSplitSpace acc l = [acc.reverse ++ l] := by
  induction l with
  | nil => intro acc _; simp [jsSplitSpace]
  | cons c cs ih =>
    intro acc hns
    have hc : (c == ' ') = false :=
      beq_eq_false_iff_ne.mpr (hns c (List.mem_cons_self c cs))
    simp only [jsSplitSpace, hc, Bool.false_eq_true, if_false]
    rw [ih (c :: acc) (fun x hx => hns x (List.mem_cons_of_mem c hx))]
    simp

/-- Splitting `l ++ ' ' :: r` where `l` contains no space: the first piece
is `l` and the rest is the splitting of `r`. -/
theorem jsSplitSpace_append (l : List Char) :
    ∀ acc r, (∀ c ∈ l, c ≠ ' ') →
      jsSplitSpace acc (l ++ ' ' :: r) = (acc.reverse ++ l) :: jsSplitSpace [] r := by
  induction l with
  | nil => intro acc r _; simp [jsSplitSpace]
  | cons c cs ih =>
    intro acc r hns
    have hc : (c == ' ') = false :=
      beq_eq_false_iff_ne.mpr (hns c (List.mem_cons_self c cs))
    simp only [List.cons_append, jsSplitSpace, hc, Bool.false_eq_true, if_false]
    change jsSplitSpace (c :: acc) (cs ++ ' ' :: r) = _
    rw [ih (c :: acc) r (fun x hx => hns x (List.mem_cons_of_mem c hx))]
    simp

/-- The data of a doubly appended string. -/
theorem strData_append3 (s t u : String) :
    (s ++ t ++ u).data = s.data ++ t.data ++ u.data := by
  rw [String.data_append, String.data_append]

/-- C2: when a bearer secret is configured (a non-empty `BE_TOKEN`), a
request to a `/tools/*` route passes the gate, so that the route handler
runs, exactly when the token part extracted from its Authorization header
equals the secret; every other request is answered 401 with body
error "unauthorized" and the handler does not run. When no secret is
configured (`BE_TOKEN` absent or empty, hence falsy), every request
proceeds to the route's normal validation with no authentication check. -/
theorem C2_bearer_gate (secret : String) (hdr : Option String)
    (hsec : secret ≠ "") :
    (authenticateToken (some secret) hdr = .proceed ↔
      extractToken hdr = some secret) ∧
    (∀ hdr2 : Option String, authenticateToken none hdr2 = .proceed) ∧
    (∀ hdr2 : Option String, authenticateToken (some "") hdr2 = .proceed) := by
  have hb : (secret == "") = false := beq_eq_false_iff_ne.mpr hsec
  refine ⟨?_, fun hdr2 => rfl, fun hdr2 => by simp [authenticateToken]⟩
  cases hx : extractToken hdr with
  | none => simp [authenticateToken, hb, hx]
  | some t =>
    by_cases ht : t = secret
    · subst ht
      have htne : (t == "") = false := beq_eq_false_iff_ne.mpr hsec
      simp [authenticateToken, hb, hx, htne]
    · simp [authenticateToken, hb, hx, ht]

/-- Witness for C2 at concrete inputs. -/
theorem C2_bearer_gate_witness :
    authenticateToken (some "tok") (some "Bearer tok") = .proceed ∧
    authenticateToken (some "tok") (some "Bearer wrong") = .unauthorized ∧
    authenticateToken none (some "anything") = .proceed := by
  refine ⟨?_, ?_, ?_⟩
  · exact (C2_bearer_gate "tok" (some "Bearer tok") (by decide)).1.mpr (by decide)
  · have h2 := (C2_bearer_gate "tok" (some "Bearer wrong") (by decide)).1
    cases hv : authenticateToken (some "tok") (some "Bearer wrong") with
    | proceed => exact absurd (h2.mp hv) (by decide)
    | unauthorized => rfl
  · exact (C2_bearer_gate "tok" none (by decide)).2.1 (some "anything")

/-- C9: when a bearer secret is configured, the gate accepts any request
whose Authorization header's second space-separated token equals the
secret, regardless of the scheme word (for example `Basic <secret>` is
accepted, not only `Bearer <secret>`); and it rejects with 401 any
Authorization header without a second space-separated token — in
particular a header consisting of the bare secret alone. -/
theorem C9_scheme_ignored (secret scheme hd : String) (hsec : secret ≠ "")
    (hsecsp : ∀ c ∈ secret.data, c ≠ ' ')
    (hschsp : ∀ c ∈ scheme.data, c ≠ ' ')
    (hhdsp : ∀ c ∈ hd.data, c ≠ ' ') :
    authenticateToken (some secret) (some (scheme ++ " " ++ secret)) = .proceed ∧
    authenticateToken (some secret) (some hd) = .unauthorized := by
  have hb : (secret == "") = false := beq_eq_false_iff_ne.mpr hsec
  constructor
  · have hdata : (scheme ++ " " ++ secret).data =
        scheme.data ++ ' ' :: secret.data := by
      rw [strData_append3]
      simp [String.data]
    have hne : ((scheme ++ " " ++ secret) == "") = false := by
      refine beq_eq_false_iff_ne.mpr (fun hcon => ?_)
      have : (scheme ++ " " ++ secret).data = ("" : String).data := by rw [hcon]
      rw [hdata] at this
      simp [String.data] at this
    have hsplit : jsSplitSpaceStr (scheme ++ " " ++ secret) = [scheme, secret] := by
      unfold jsSplitSpaceStr
      rw [hdata, jsSplitSpace_append scheme.data [] secret.data hschsp,
        jsSplitSpace_nospace secret.data [] hsecsp]
      simp
    have hx : extractToken (some (scheme ++ " " ++ secret)) = some secret := by
      simp [extractToken, hne, hsplit]
    have htne : (secret == "") = false := hb
    simp [authenticateToken, hb, hx, htne]
  · by_cases hhd : hd = ""
    · subst hhd
      simp [authenticateToken, hb, extractToken]
    · have hne : (hd == "") = false := beq_eq_false_iff_ne.mpr hhd
      have hx : extractToken (some hd) = none := by
        simp [extractToken, hne, jsSplitSpaceStr,
          jsSplitSpace_nospace hd.data [] hhdsp]
      simp [authenticateToken, hb, hx]

/-- Witness for C9 at concrete inputs: scheme word `Basic`, and the bare
secret as the whole header. -/
theorem C9_scheme_ignored_witness :
    authenticateToken (some "s3cret") (some ("Basic" ++ " " ++ "s3cret")) = .proceed ∧
    authenticateToken (some "s3cret") (some "s3cret") = .unauthorized :=
  C9_scheme_ignored "s3cret" "Basic" "s3cret" (by decide) (by decide)
    (by decide) (by decide)

/-- Two strings with equal character data are equal. -/
theorem strExt {s t : String} (h : s.data = t.data) : s = t := by
  cases s; cases t; exact congrArg String.mk h

/-- Every member of a list occurs as a substring of its comma join. -/
theorem joinComma_sub (l : List String) (k : String) (hk : k ∈ l) :
    ∃ p q, joinComma l = p ++ k ++ q := by
  induction l with
  | nil => cases hk
  | cons s rest ih =>
    cases hmem : rest with
    | nil =>
      rw [hmem] at hk
      have hks : k = s := by simpa using hk
      subst hks
      refine ⟨"", "", ?_⟩
      apply strExt
      simp [joinComma, String.data_append]
    | cons r rs =>
      rw [hmem] at hk ih
      rcases List.mem_cons.mp hk with hks | hkr
      · subst hks
        refine ⟨"", ", " ++ joinComma (r :: rs), ?_⟩
        apply strExt
        simp [joinComma, String.data_append, List.append_assoc]
      · obtain ⟨p, q, hpq⟩ := ih hkr
        refine ⟨s ++ ", " ++ p, q, ?_⟩
        apply strExt
        simp [joinComma, hpq, String.data_append, List.append_assoc]

/-- The missing-key list is empty exactly when every required key is
present. -/
theorem missingKeysOf_eq_nil (obj : List (String × String)) :
    missingKeysOf obj = [] ↔ ∀ k ∈ requiredKeys, hasKey obj k = true := by
  unfold missingKeysOf
  rw [List.filter_eq_nil_iff]
  constructor
  · intro h k hk
    have := h k hk
    simpa using this
  · intro h k hk
    simp [h k hk]

/-- C3 (amended): the summarize_article key validation accepts a parsed
provider reply exactly when all four required keys are present — extra
keys are not an error and the accepted object is returned verbatim; when
any required key is absent the response is status 500 with an error
message that names each missing key as a substring. -/
theorem C3_key_validation (obj : List (String × String)) :
    (validateSummaryKeys obj = .ok obj ↔ ∀ k ∈ requiredKeys, hasKey obj k = true) ∧
    ((missingKeysOf obj).length > 0 →
      validateSummaryKeys obj = .errReceived 500
        ("Invalid response format. Missing keys: " ++ joinComma (missingKeysOf obj))
        obj) ∧
    (∀ k ∈ requiredKeys, hasKey obj k = false →
      ∃ pre post,
        "Invalid response format. Missing keys: " ++ joinComma (missingKeysOf obj) =
          pre ++ k ++ post) := by
  refine ⟨?_, ?_, ?_⟩
  · by_cases hm : missingKeysOf obj = []
    · constructor
      · intro _
        exact (missingKeysOf_eq_nil obj).mp hm
      · intro _
        simp [validateSummaryKeys, hm]
    · have hlen : (missingKeysOf obj).length > 0 :=
        List.length_pos.mpr hm
      constructor
      · intro hok
        exfalso
        simp [validateSummaryKeys, hlen] at hok
      · intro hall
        exact absurd ((missingKeysOf_eq_nil obj).mpr hall) hm
  · intro hlen
    simp [validateSummaryKeys, hlen]
  · intro k hk hfalse
    have hkmem : k ∈ missingKeysOf obj := by
      unfold missingKeysOf
      rw [List.mem_filter]
      exact ⟨hk, by simp [hfalse]⟩
    obtain ⟨p, q, hpq⟩ := joinComma_sub (missingKeysOf obj) k hkmem
    refine ⟨"Invalid response format. Missing keys: " ++ p, q, ?_⟩
    rw [hpq]
    apply strExt
    simp [String.data_append, List.append_assoc]

/-- Counterexample to C3 as stated: a parsed reply with the four required
keys plus an extra key is accepted and echoed verbatim with the extra key
included — the handler checks only for missing keys, so a reply need not
contain exactly the four keys. -/
theorem C3_extra_keys_accepted :
    validateSummaryKeys extraKeyObj = .ok extraKeyObj ∧
    hasKey extraKeyObj "extra" = true ∧
    requiredKeys.length = 4 ∧ extraKeyObj.length = 5 := by
  decide

/-- Witness for C3 at a concrete input missing the `action` key. -/
theorem C3_key_validation_witness :
    (missingKeysOf objMissingAction).length > 0 ∧
    validateSummaryKeys objMissingAction = .errReceived 500
      ("Invalid response format. Missing keys: " ++
        joinComma (missingKeysOf objMissingAction)) objMissingAction ∧
    ∃ pre post,
      "Invalid response format. Missing keys: " ++
        joinComma (missingKeysOf objMissingAction) = pre ++ "action" ++ post :=
  ⟨by decide, (C3_key_validation objMissingAction).2.1 (by decide),
   (C3_key_validation objMissingAction).2.2 "action" (by decide) (by decide)⟩

/-- C6: summarize_article answers 400 with body error "text is required"
whenever the request body's `text` field is missing or the empty string;
no credential check and no provider call happens (the effect trace is
empty), whatever the configured key and provider would do. -/
theorem C6_text_required (text apiKey : Option String) (p : ProviderOutcome)
    (h : text = none ∨ text = some "") :
    summarize_article text apiKey p = (.errMsg 400 "text is required", []) := by
  rcases h with h | h <;> subst h <;> rfl

/-- Witness for C6 at concrete inputs. -/
theorem C6_text_required_witness :
    summarize_article (some "") (some "key") (.parsed extraKeyObj) =
      (.errMsg 400 "text is required", []) ∧
    summarize_article none (some "key") (.parsed extraKeyObj) =
      (.errMsg 400 "text is required", []) :=
  ⟨C6_text_required (some "") (some "key") (.parsed extraKeyObj) (Or.inr rfl),
   C6_text_required none (some "key") (.parsed extraKeyObj) (Or.inl rfl)⟩

/-- C7: fal_flux_lora_generate answers 400 whenever the `loras` field is
missing or an empty array, even when a non-empty prompt is supplied; the
effect trace is empty, so no credential check and no provider call is
made, and no payload is sent. -/
theorem C7_loras_required (body : FalLoraBody) (falKey : Option String)
    (p : FalProvider) (fn cwd : String) (fs : FsOutcome) (pr : String)
    (hp : body.prompt = some pr) (hpr : pr ≠ "")
    (hl : body.loras = none ∨ body.loras = some []) :
    fal_flux_lora_generate body falKey p fn cwd fs =
      (.err 400 "loras array is required", [], none) := by
  have hpt : jsTruthy body.prompt = true := by
    rw [hp]; simp [jsTruthy, hpr]
  rcases hl with hl | hl <;> simp [fal_flux_lora_generate, hpt, hl]

/-- Witness for C7 at the specification's own test vector
`prompt "x", loras []`. -/
theorem C7_loras_required_witness :
    fal_flux_lora_generate ⟨some "x", some [], none, none, none, none, none⟩
      (some "falkey") (.image "u") "lora_t.jpg" "/app" .ok =
      (.err 400 "loras array is required", [], none) :=
  C7_loras_required ⟨some "x", some [], none, none, none, none, none⟩
    (some "falkey") (.image "u") "lora_t.jpg" "/app" .ok "x" rfl (by decide)
    (Or.inr rfl)

/-- C10: in both image-generation endpoints the payload sent to the
provider carries, for each of width, height, steps, guidance and
sync_mode, exactly `field.getD default` of the request field — so the
documented defaults 1080, 1350, 28, 3.5 and true apply precisely when the
field is absent or undefined, and any explicitly supplied value, the falsy
values 0, null and false included, is forwarded unchanged, as the last two
clause groups spell out for `Option.getD`. -/
theorem C10_defaults_only_when_absent (b : FalGenBody) (bl : FalLoraBody)
    (key : Option String) (p : FalProvider) (fn cwd : String) (fs : FsOutcome)
    (pr : String) (l : Lora) (ls : List Lora)
    (hb : b.prompt = some pr) (hbl : bl.prompt = some pr) (hpr : pr ≠ "")
    (hls : bl.loras = some (l :: ls)) (hk : jsTruthy key = true) :
    (fal_generate b key p fn cwd fs).2.2 = some
      { prompt := pr
        image_size_width := b.width.getD (.jnum 1080)
        image_size_height := b.height.getD (.jnum 1350)
        num_inference_steps := b.steps.getD (.jnum 28)
        guidance_scale := b.guidance.getD (.jnum (7 / 2))
        enable_safety_checker := true
        output_format := "jpeg"
        sync_mode := b.sync_mode.getD (.jbool true) } ∧
    (fal_flux_lora_generate bl key p fn cwd fs).2.2 = some
      { prompt := pr
        image_size_width := bl.width.getD (.jnum 1080)
        image_size_height := bl.height.getD (.jnum 1350)
        num_inference_steps := bl.steps.getD (.jnum 28)
        guidance_scale := bl.guidance.getD (.jnum (7 / 2))
        enable_safety_checker := true
        loras := l :: ls
        output_format := "jpeg"
        sync_mode := bl.sync_mode.getD (.jbool true) } ∧
    (∀ v : JVal,
      (some v : Option JVal).getD (.jnum 1080) = v ∧
      (some v : Option JVal).getD (.jnum 1350) = v ∧
      (some v : Option JVal).getD (.jnum 28) = v ∧
      (some v : Option JVal).getD (.jnum (7 / 2)) = v ∧
      (some v : Option JVal).getD (.jbool true) = v) ∧
    (none : Option JVal).getD (.jnum 1080) = .jnum 1080 ∧
    (none : Option JVal).getD (.jbool true) = .jbool true := by
  have hprt : jsTruthy (some pr) = true := by simp [jsTruthy, hpr]
  refine ⟨?_, ?_, fun v => ⟨rfl, rfl, rfl, rfl, rfl⟩, rfl, rfl⟩
  · cases p <;> simp [fal_generate, hb, hprt, hk]
  · cases p <;> simp [fal_flux_lora_generate, hbl, hprt, hk, hls]

/-- Witness for C10: width 0 yields image_size width 0 rather than 1080,
null guidance stays null, and sync_mode false disables synchronous mode,
in both endpoints. -/
theorem C10_defaults_only_when_absent_witness :
    (fal_generate c10GenBody (some "k") (.image "u") "f.jpg" "/app" .ok).2.2 = some
      { prompt := "x"
        image_size_width := .jnum 0
        image_size_height := .jnum 1350
        num_inference_steps := .jnum 28
        guidance_scale := .jnull
        enable_safety_checker := true
        output_format := "jpeg"
        sync_mode := .jbool false } ∧
    (fal_flux_lora_generate c10LoraBody (some "k") (.image "u") "l.jpg" "/app"
        .ok).2.2 = some
      { prompt := "x"
        image_size_width := .jnum 0
        image_size_height := .jnum 1350
        num_inference_steps := .jnum 28
        guidance_scale := .jnum (7 / 2)
        enable_safety_checker := true
        loras := [⟨"w.safetensors", 1⟩]
        output_format := "jpeg"
        sync_mode := .jbool false } := by
  have h := C10_defaults_only_when_absent c10GenBody c10LoraBody (some "k")
    (.image "u") "f.jpg" "/app" .ok "x" ⟨"w.safetensors", 1⟩ []
    rfl rfl (by decide) rfl rfl
  exact ⟨h.1, h.2.1⟩

/-- C4 (amended): a local persistence failure never fails a successful
image-generation call. The image persister catches the thrown error and
returns a failure flag carrying the captured message (it is a total
function of the filesystem outcome, so it never throws past its boundary),
and the endpoint still responds with HTTP status 200, the image_url, a
null saved_to_file, and save_error carrying the captured message when that
message is non-empty — an empty captured message collapses to null under
the JavaScript or-null coalescing. -/
theorem C4_persistence_nonfatal (cwd d fn m url : String) (body : FalGenBody)
    (key : Option String) (pr : String)
    (hp : body.prompt = some pr) (hpr : pr ≠ "") (hk : jsTruthy key = true) :
    saveImageToFolder cwd (.err m) d fn =
      { success := false, path := none, filename := none, error := some m } ∧
    (fal_generate body key (.image url) fn cwd (.err m)).1 = .okJson
      { image_url := url
        saved_to_file := none
        save_error := if m = "" then none else some m } ∧
    ((fal_generate body key (.image url) fn cwd (.err m)).1).statusCode = 200 := by
  have hpt : jsTruthy body.prompt = true := by
    rw [hp]; simp [jsTruthy, hpr]
  have h2 : (fal_generate body key (.image url) fn cwd (.err m)).1 = .okJson
      { image_url := url
        saved_to_file := none
        save_error := if m = "" then none else some m } := by
    simp [fal_generate, hpt, hk, saveImageToFolder, jsOrNullStr]
  exact ⟨rfl, h2, by rw [h2]; rfl⟩

/-- Counterexample to C4 as stated: when the filesystem error's captured
message is the empty string, the persister does return the captured
message, but the endpoint's save_error field is null rather than that
message, because the source coalesces with `saveResult.error || null`. -/
theorem C4_empty_message_dropped :
    (saveImageToFolder "/app" (.err "") "data" "f.jpg").error = some "" ∧
    (fal_generate c4Body (some "k") (.image "https://img") "f.jpg" "/app"
        (.err "")).1 =
      .okJson { image_url := "https://img", saved_to_file := none,
                save_error := none } := by
  decide

/-- Witness for C4 at a concrete non-empty error message. -/
theorem C4_persistence_nonfatal_witness :
    saveImageToFolder "/app" (.err "EACCES: permission denied") "data" "f.jpg" =
      { success := false, path := none, filename := none,
        error := some "EACCES: permission denied" } ∧
    (fal_generate c4Body (some "k") (.image "https://img") "f.jpg" "/app"
        (.err "EACCES: permission denied")).1 = .okJson
      { image_url := "https://img"
        saved_to_file := none
        save_error := if "EACCES: permission denied" = "" then none
          else some "EACCES: permission denied" } := by
  have h := C4_persistence_nonfatal "/app" "data" "f.jpg"
    "EACCES: permission denied" "https://img" c4Body (some "k") "p"
    rfl (by decide) rfl
  exact ⟨h.1, h.2.1⟩

/-- C8 (amended): in the workflow's caption step, a provider reply whose
trimmed text is non-empty lands in instagram_caption as that trimmed
text; when the reply is absent, or trims to the empty string (so also a
whitespace-only reply), the caption silently falls back to the
summarizer's one-liner. -/
theorem C8_caption_trim_fallback (c s : String) :
    (jsTrimStr c ≠ "" → captionFromContent (some c) s = jsTrimStr c) ∧
    (jsTrimStr c = "" → captionFromContent (some c) s = s) ∧
    captionFromContent none s = s := by
  refine ⟨?_, ?_, rfl⟩
  · intro h
    simp [captionFromContent, h]
  · intro h
    simp [captionFromContent, h]

/-- Counterexample to C8 as stated: the provider call succeeds with the
whitespace-only reply, which is neither empty nor absent, yet the caption
is not the trimmed reply text (the empty string) but the fallback
one-liner. -/
theorem C8_whitespace_reply_falls_back :
    captionFromContent (some " ") "S" = "S" ∧
    jsTrimStr " " = "" ∧ ("S" : String) ≠ jsTrimStr " " := by
  decide

/-- Witness for C8 at concrete inputs. -/
theorem C8_caption_trim_fallback_witness :
    captionFromContent (some " x ") "S" = jsTrimStr " x " ∧
    captionFromContent (some "") "S" = "S" ∧
    captionFromContent none "S" = "S" :=
  ⟨(C8_caption_trim_fallback " x " "S").1 (by decide),
   (C8_caption_trim_fallback "" "S").2.1 (by decide),
   (C8_caption_trim_fallback "" "S").2.2⟩

/-- C1: whenever the summarizer reply of a process_news_url run carries
action SKIP (the extraction and summarize steps having succeeded), the
handler returns immediately with the skipped body carrying status
"skipped", the original url and the extracted title, and the trace shows
zero image-generation self-calls and zero caption provider calls —
whatever the image and caption oracles would have answered. -/
theorem C1_skip_short_circuits (u : String) (env : WorkflowEnv)
    (ext : Extraction) (sd : SummaryData) (hu : u ≠ "")
    (hext : env.extract = .ok ext) (hsum : env.summary = .ok sd)
    (hskip : sd.action = "SKIP") :
    process_news_url (some u) env =
      (.skipped "Content flagged as sensitive" u ext.title, ⟨0, 0⟩) := by
  have hut : jsTruthy (some u) = true := by simp [jsTruthy, hu]
  simp [process_news_url, hut, hext, hsum, hskip]

/-- Witness for C1 on an environment whose downstream oracles would fail
if consulted. -/
theorem C1_skip_short_circuits_witness :
    process_news_url (some "https://example.com") skipEnv =
      (.skipped "Content flagged as sensitive" "https://example.com" "Title",
       ⟨0, 0⟩) :=
  C1_skip_short_circuits "https://example.com" skipEnv
    ⟨"Title", "Body", "https://example.com"⟩ ⟨"S", "V", "P", "SKIP"⟩
    (by decide) rfl rfl rfl

/-- Every character of a `matchCI` remainder occurs in the input. -/
theorem matchCI_mem (lit : List Char) :
    ∀ cs rest, matchCI lit cs = some rest → ∀ c ∈ rest, c ∈ cs := by
  induction lit with
  | nil =>
    intro cs rest h c hc
    simp only [matchCI, Option.some.injEq] at h
    exact h ▸ hc
  | cons p ps ih =>
    intro cs rest h c hc
    cases cs with
    | nil => simp [matchCI] at h
    | cons d ds =>
      by_cases hpd : (p.toLower == d.toLower) = true
      · simp only [matchCI, hpd, if_true] at h
        exact List.mem_cons_of_mem d (ih ds rest h c hc)
      · simp [matchCI, hpd] at h

/-- Every character of a `consumeTagEnd` remainder occurs in the input. -/
theorem consumeTagEnd_mem :
    ∀ cs rest, consumeTagEnd cs = some rest → ∀ c ∈ rest, c ∈ cs := by
  intro cs
  induction cs with
  | nil => intro rest h; simp [consumeTagEnd] at h
  | cons d ds ih =>
    intro rest h c hc
    by_cases hd : (d == '>') = true
    · simp only [consumeTagEnd, hd, if_true, Option.some.injEq] at h
      exact List.mem_cons_of_mem d (h ▸ hc)
    · simp only [consumeTagEnd, hd, Bool.false_eq_true, if_false] at h
      exact List.mem_cons_of_mem d (ih rest h c hc)

/-- Every character of a `findClose` remainder occurs in the input. -/
theorem findClose_mem (lit : List Char) (b : Bool) :
    ∀ cs rest, findClose lit b cs = some rest → ∀ c ∈ rest, c ∈ cs := by
  intro cs
  induction cs with
  | nil =>
    intro rest h c hc
    exact matchCI_mem lit [] rest h c hc
  | cons d ds ih =>
    intro rest h c hc
    simp only [findClose] at h
    split at h
    next r2 hm =>
      cases h
      exact matchCI_mem lit (d :: ds) rest hm c hc
    next hm =>
      split at h
      next => cases h
      next => exact List.mem_cons_of_mem d (ih rest h c hc)

/-- `findClose` ignores the dotAll flag on inputs without line
terminators. -/
theorem findClose_flag (lit : List Char) :
    ∀ cs, (∀ c ∈ cs, isLineTerm c = false) →
      findClose lit true cs = findClose lit false cs := by
  intro cs
  induction cs with
  | nil => intro _; rfl
  | cons d ds ih =>
    intro hns
    have hd : isLineTerm d = false := hns d (List.mem_cons_self d ds)
    cases hm : matchCI lit (d :: ds) with
    | some r2 => simp [findClose, hm]
    | none =>
      simp only [findClose, hm, Bool.not_true, Bool.false_and, Bool.not_false,
        Bool.true_and, hd, Bool.false_eq_true, if_false]
      exact ih (fun x hx => hns x (List.mem_cons_of_mem d hx))

/-- Every character of a `tryBlock` remainder occurs in the input. -/
theorem tryBlock_mem (o cl : List Char) (b : Bool) :
    ∀ cs rest, tryBlock o cl b cs = some rest → ∀ c ∈ rest, c ∈ cs := by
  intro cs rest h c hc
  unfold tryBlock at h
  split at h
  next => cases h
  next r1 hm =>
    split at h
    next => cases h
    next r2 hct =>
      exact matchCI_mem o cs r1 hm c
        (consumeTagEnd_mem r1 r2 hct c (findClose_mem cl b r2 rest h c hc))

/-- `tryBlock` ignores the dotAll flag on inputs without line
terminators. -/
theorem tryBlock_flag (o cl : List Char) :
    ∀ cs, (∀ c ∈ cs, isLineTerm c = false) →
      tryBlock o cl true cs = tryBlock o cl false cs := by
  intro cs hns
  unfold tryBlock
  cases hm : matchCI o cs with
  | none => rfl
  | some r1 =>
    change
      (match consumeTagEnd r1 with
        | none => none
        | some r2 => findClose cl true r2) =
      (match consumeTagEnd r1 with
        | none => none
        | some r2 => findClose cl false r2)
    cases hct : consumeTagEnd r1 with
    | none => rfl
    | some r2 =>
      change findClose cl true r2 = findClose cl false r2
      exact findClose_flag cl r2 (fun x hx =>
        hns x (matchCI_mem o cs r1 hm x (consumeTagEnd_mem r1 r2 hct x hx)))

/-- Every character of a `stripBlocks` output occurs in the input. -/
theorem stripBlocks_mem (o cl : List Char) (b : Bool) :
    ∀ fuel cs, ∀ c ∈ stripBlocks o cl b fuel cs, c ∈ cs := by
  intro fuel
  induction fuel with
  | zero => intro cs c hc; exact hc
  | succ n ih =>
    intro cs c hc
    cases cs with
    | nil => simp [stripBlocks] at hc
    | cons d ds =>
      simp only [stripBlocks] at hc
      split at hc
      next rest ht =>
        exact tryBlock_mem o cl b (d :: ds) rest ht c (ih rest c hc)
      next ht =>
        rcases List.mem_cons.mp hc with h1 | h2
        · subst h1; exact List.mem_cons_self c ds
        · exact List.mem_cons_of_mem d (ih ds c h2)

/-- `stripBlocks` ignores the dotAll flag on inputs without line
terminators. -/
theorem stripBlocks_flag (o cl : List Char) :
    ∀ fuel cs, (∀ c ∈ cs, isLineTerm c = false) →
      stripBlocks o cl true fuel cs = stripBlocks o cl false fuel cs := by
  intro fuel
  induction fuel with
  | zero => intro cs _; rfl
  | succ n ih =>
    intro cs hns
    cases cs with
    | nil => rfl
    | cons d ds =>
      have hflag := tryBlock_flag o cl (d :: ds) hns
      simp only [stripBlocks, hflag]
      cases ht : tryBlock o cl false (d :: ds) with
      | some rest =>
        exact ih rest (fun x hx =>
          hns x (tryBlock_mem o cl false (d :: ds) rest ht x hx))
      | none =>
        exact congrArg (fun l => d :: l)
          (ih ds (fun x hx => hns x (List.mem_cons_of_mem d hx)))

/-- Every character of a `stripBlocksAll` output occurs in the input. -/
theorem stripBlocksAll_mem (o cl : List Char) (b : Bool) (cs : List Char) :
    ∀ c ∈ stripBlocksAll o cl b cs, c ∈ cs :=
  fun c hc => stripBlocks_mem o cl b cs.length cs c hc

/-- `stripBlocksAll` ignores the dotAll flag on inputs without line
terminators. -/
theorem stripBlocksAll_flag (o cl : List Char) (cs : List Char)
    (hns : ∀ c ∈ cs, isLineTerm c = false) :
    stripBlocksAll o cl true cs = stripBlocksAll o cl false cs :=
  stripBlocks_flag o cl cs.length cs hns

/-- C5 (amended): for every fetched HTML document that contains no line
terminator, the extractor's content text is exactly what the
specification describes — script and style blocks stripped, remaining
tags stripped, whitespace collapsed to single spaces, and the result
truncated to its first 5000 characters. In general the block regexps
carry no dotAll flag, so a script or style block whose body spans a line
break is not stripped as a block; only its tags are removed and its text
content leaks into the output, as the counterexample shows. -/
theorem C5_extractor_matches_spec_without_newlines (html : String)
    (h : ∀ c ∈ html.data, isLineTerm c = false) :
    extractTextContent html = extractTextContentSpec html := by
  unfold extractTextContent extractTextContentSpec extractTextPipeline
  rw [stripBlocksAll_flag scriptOpen scriptClose html.data h,
    stripBlocksAll_flag styleOpen styleClose
      (stripBlocksAll scriptOpen scriptClose false html.data)
      (fun x hx => h x (stripBlocksAll_mem scriptOpen scriptClose false
        html.data x hx))]

/-- Counterexample to C5 as stated: in a document whose script block body
spans line breaks, the block is not stripped (the script body `a` leaks
into the extracted text), so the extractor does not produce the text with
all script blocks stripped, which here would be `ok`. -/
theorem C5_multiline_script_leaks :
    extractTextContent scriptNewlineDoc = "a ok" ∧
    extractTextContentSpec scriptNewlineDoc = "ok" ∧
    extractTextContent scriptNewlineDoc ≠ extractTextContentSpec scriptNewlineDoc := by
  decide

/-- Witness for C5 on a concrete document without line terminators. -/
theorem C5_extractor_matches_spec_without_newlines_witness :
    (∀ c ∈ singleLineDoc.data, isLineTerm c = false) ∧
    extractTextContent singleLineDoc = extractTextContentSpec singleLineDoc :=
  ⟨by decide, C5_extractor_matches_spec_without_newlines singleLineDoc (by decide)⟩

end AINews
